import Mathlib

/-!
Verification of `jira_manager.py` (crizzo71/JiraManager).

Shallow embedding of the API-compatibility resolution and activity
classification engine: the version negotiator (`test_connection`), the
three-tier board/issue discovery (`get_boards`, `get_board_issues`), the
date normalizer (`_parse_jira_date`, `_compare_dates`), the activity
classifier (`get_issues_by_date_range`) and the impact scorer
(`_assess_business_impact`).

Machine conventions: Python strings are Lean `String`s; Python `datetime`
values are the record `PyDatetime` below, with the UTC offset of an
offset-aware value stored in microseconds; fallible Python code is
embedded through `Option`/`Except`.
-/

namespace JiraMgr

/-! ## Python string primitives -/

/-- Decimal value of an ASCII digit character. -/
def digitVal (c : Char) : Nat := c.toNat - 48

/-- ASCII decimal-digit test (regex `\d`). -/
def isAsciiDigit (c : Char) : Bool := '0' ≤ c && c ≤ '9'

/-- Does the first character list occur at the head of the second? -/
def charsLeadMatch : List Char → List Char → Bool
  | [], _ => true
  | _ :: _, [] => false
  | c :: cs, d :: ds => c == d && charsLeadMatch cs ds

/-- Does the first character list occur anywhere inside the second? -/
def charsContains (needle : List Char) : List Char → Bool
  | [] => charsLeadMatch needle []
  | d :: ds => charsLeadMatch needle (d :: ds) || charsContains needle ds

/-- Python `needle in hay` for strings. -/
def pyIn (needle hay : String) : Bool := charsContains needle.toList hay.toList

/-- Python `s.startswith(p)`. -/
def pyStartswith (p s : String) : Bool := charsLeadMatch p.toList s.toList

/-- Python whitespace as stripped by `str.strip()`. -/
def isPySpace (c : Char) : Bool :=
  c == ' ' || c == '\t' || c == '\n' || c == '\r' || c == '\x0b' || c == '\x0c'

/-- Python `s.strip()`. -/
def pyStrip (s : String) : String :=
  ⟨((s.toList.dropWhile isPySpace).reverse.dropWhile isPySpace).reverse⟩

/-- Python `s.lower()` (character-wise case folding, which covers every
string the source feeds through it). -/
def pyLower (s : String) : String := ⟨s.toList.map Char.toLower⟩

/-- Python `s.endswith(t)`. -/
def pyEndswith (s t : String) : Bool :=
  charsLeadMatch t.toList.reverse s.toList.reverse

/-- Python `s.replace(old, new)` for a one-character `old`, the only
shape the source uses (`replace('Z', '+0000')`). -/
def charsReplaceChar (old : Char) (new : List Char) : List Char → List Char
  | [] => []
  | c :: cs => (if c == old then new else [c]) ++ charsReplaceChar old new cs

/-- Python `' '.join(xs)`. -/
def pyJoinSpace : List String → String
  | [] => ""
  | [s] => s
  | s :: rest => s ++ " " ++ pyJoinSpace rest

/-! ## `datetime` model

A Python `datetime` value: wall-clock fields plus an optional UTC offset
(`tzinfo`), the offset measured in microseconds east of UTC. -/

structure PyDatetime where
  year : Nat
  month : Nat
  day : Nat
  hour : Nat
  minute : Nat
  second : Nat
  microsecond : Nat
  tz : Option Int
deriving Repr, DecidableEq

/-- Proleptic-Gregorian leap-year rule used by `datetime.date`. -/
def isLeapYear (y : Nat) : Bool := y % 4 == 0 && (y % 100 != 0 || y % 400 == 0)

/-- Length of a month, as enforced by the `datetime` constructor. -/
def daysInMonth (y m : Nat) : Nat :=
  if m = 2 then (if isLeapYear y then 29 else 28)
  else if m = 4 ∨ m = 6 ∨ m = 9 ∨ m = 11 then 30
  else 31

/-- Days in all years before year `y` (proleptic Gregorian). -/
def daysBeforeYear (y : Nat) : Nat :=
  let n := y - 1
  n * 365 + n / 4 - n / 100 + n / 400

/-- Days in the months of year `y` that precede month `m`. -/
def daysBeforeMonth (y m : Nat) : Nat :=
  (List.range (m - 1)).foldl (fun acc i => acc + daysInMonth y (i + 1)) 0

/-- `date.toordinal()`: day count with day 1 = January 1 of year 1. -/
def toOrdinal (y m d : Nat) : Nat := daysBeforeYear y + daysBeforeMonth y m + d

/-- The wall-clock instant of a `datetime` as microseconds on the
proleptic-Gregorian time line, ignoring any offset. -/
def naiveMicros (dt : PyDatetime) : Int :=
  (toOrdinal dt.year dt.month dt.day : Int) * 86400000000
    + dt.hour * 3600000000 + dt.minute * 60000000
    + dt.second * 1000000 + dt.microsecond

/-- The UTC instant of a `datetime`: the wall clock minus the UTC offset
(an offset of `none` is read as zero here; callers guard awareness). -/
def utcMicros (dt : PyDatetime) : Int := naiveMicros dt - dt.tz.getD 0

/-- Python `date1 >= date2` on `datetime` values: aware pairs compare by
UTC instant, naive pairs compare by wall clock, and a mixed pair raises
`TypeError`. -/
def pyGeDatetime (a b : PyDatetime) : Except String Bool :=
  match a.tz, b.tz with
  | some _, some _ => .ok (decide (utcMicros a ≥ utcMicros b))
  | none, none => .ok (decide (naiveMicros a ≥ naiveMicros b))
  | _, _ => .error "TypeError: cannot compare offset-naive and offset-aware datetimes"

/-! ## `_compare_dates` (jira_manager.py lines 1132-1153) -/

/-- The `try`-block of `_compare_dates`: branch on awareness, convert a
lone naive operand to UTC via `replace(tzinfo=timezone.utc)`, then apply
Python `>=`.  The `Except` layer records where an exception could arise. -/
def compareDatesE (date1 date2 : PyDatetime) : Except String Bool :=
  if date1.tz.isSome && date2.tz.isSome then
    pyGeDatetime date1 date2
  else if date1.tz.isNone && date2.tz.isNone then
    pyGeDatetime date1 date2
  else
    let d1 := if date1.tz.isNone && date2.tz.isSome then { date1 with tz := some 0 } else date1
    let d2 :=
      if !(date1.tz.isNone && date2.tz.isSome) && date2.tz.isNone && date1.tz.isSome then
        { date2 with tz := some 0 }
      else date2
    pyGeDatetime d1 d2

/-- `_compare_dates`: the `except` handler turns any exception into
`False`. -/
def compareDates (date1 date2 : PyDatetime) : Bool :=
  match compareDatesE date1 date2 with
  | .ok r => r
  | .error _ => false

/-! ## `datetime.strptime` for the five formats of `_parse_jira_date`

Each `%`-directive is embedded after the regular expression CPython's
`_strptime` compiles for it (`Y` is four digits; `m`, `d`, `H`, `M`, `S`
try the two-digit alternatives before the one-digit one; `f` is one to
six digits; `z` is a signed `hh[:]mm` with an optional seconds part, or
the literal `Z`).  Literal format characters match case-insensitively,
as the compiled pattern carries `IGNORECASE`.  After the regex phase the
`datetime` constructor validates calendar ranges; `validDatetime` below
plays that role. -/

/-- `%Y`: exactly four digits. -/
def scanYear : List Char → Option (Nat × List Char)
  | a :: b :: c :: d :: rest =>
    if isAsciiDigit a && isAsciiDigit b && isAsciiDigit c && isAsciiDigit d then
      some (1000 * digitVal a + 100 * digitVal b + 10 * digitVal c + digitVal d, rest)
    else none
  | _ => none

/-- `%m`: `1[0-2]|0[1-9]|[1-9]`. -/
def scanMonth : List Char → Option (Nat × List Char)
  | a :: b :: rest =>
    if a = '1' && ('0' ≤ b && b ≤ '2') then some (10 + digitVal b, rest)
    else if a = '0' && ('1' ≤ b && b ≤ '9') then some (digitVal b, rest)
    else if '1' ≤ a && a ≤ '9' then some (digitVal a, b :: rest)
    else none
  | [a] => if '1' ≤ a && a ≤ '9' then some (digitVal a, []) else none
  | [] => none

/-- `%d`: `3[01]|[12]\d|0[1-9]|[1-9]`. -/
def scanDay : List Char → Option (Nat × List Char)
  | a :: b :: rest =>
    if a = '3' && (b = '0' || b = '1') then some (30 + digitVal b, rest)
    else if (a = '1' || a = '2') && isAsciiDigit b then
      some (10 * digitVal a + digitVal b, rest)
    else if a = '0' && ('1' ≤ b && b ≤ '9') then some (digitVal b, rest)
    else if '1' ≤ a && a ≤ '9' then some (digitVal a, b :: rest)
    else none
  | [a] => if '1' ≤ a && a ≤ '9' then some (digitVal a, []) else none
  | [] => none

/-- `%H`: `2[0-3]|[0-1]\d|\d`. -/
def scanHour : List Char → Option (Nat × List Char)
  | a :: b :: rest =>
    if a = '2' && ('0' ≤ b && b ≤ '3') then some (20 + digitVal b, rest)
    else if (a = '0' || a = '1') && isAsciiDigit b then
      some (10 * digitVal a + digitVal b, rest)
    else if isAsciiDigit a then some (digitVal a, b :: rest)
    else none
  | [a] => if isAsciiDigit a then some (digitVal a, []) else none
  | [] => none

/-- `%M`: `[0-5]\d|\d`. -/
def scanMinute : List Char → Option (Nat × List Char)
  | a :: b :: rest =>
    if ('0' ≤ a && a ≤ '5') && isAsciiDigit b then
      some (10 * digitVal a + digitVal b, rest)
    else if isAsciiDigit a then some (digitVal a, b :: rest)
    else none
  | [a] => if isAsciiDigit a then some (digitVal a, []) else none
  | [] => none

/-- `%S`: `6[0-1]|[0-5]\d|\d` (the leap-second forms survive the regex
but are rejected by the `datetime` constructor). -/
def scanSecond : List Char → Option (Nat × List Char)
  | a :: b :: rest =>
    if a = '6' && (b = '0' || b = '1') then some (60 + digitVal b, rest)
    else if ('0' ≤ a && a ≤ '5') && isAsciiDigit b then
      some (10 * digitVal a + digitVal b, rest)
    else if isAsciiDigit a then some (digitVal a, b :: rest)
    else none
  | [a] => if isAsciiDigit a then some (digitVal a, []) else none
  | [] => none

/-- `%f`: one to six digits, greedy, scaled to microseconds. -/
def scanFraction (cs : List Char) : Option (Nat × List Char) :=
  let ds := (cs.takeWhile isAsciiDigit).take 6
  if ds.isEmpty then none
  else
    some (ds.foldl (fun acc c => 10 * acc + digitVal c) 0 * 10 ^ (6 - ds.length),
      cs.drop ds.length)

/-- Two-digit `[0-5]\d` group used for the minute and second parts of a
`%z` offset. -/
def scanZTwoDigit : List Char → Option (Nat × List Char)
  | a :: b :: rest =>
    if ('0' ≤ a && a ≤ '5') && isAsciiDigit b then
      some (10 * digitVal a + digitVal b, rest)
    else none
  | _ => none

/-- Optional `(:?[0-5]\d(\.\d{1,6})?)?` seconds tail of a `%z` offset,
returning the seconds contribution in microseconds. -/
def scanZSeconds (cs : List Char) : Nat × List Char :=
  let cs1 := match cs with
    | ':' :: rest => rest
    | _ => cs
  match scanZTwoDigit cs1 with
  | some (ss, cs2) =>
    match cs2 with
    | '.' :: cs3 =>
      match scanFraction cs3 with
      | some (frac, cs4) => (ss * 1000000 + frac, cs4)
      | none => (ss * 1000000, cs2)
    | _ => (ss * 1000000, cs2)
  | none => (0, cs)

/-- `%z`: `[+-]\d\d:?[0-5]\d(:?[0-5]\d(\.\d{1,6})?)?` or a literal
(case-sensitive) `Z`; the result is the offset in microseconds. -/
def scanZOffset : List Char → Option (Int × List Char)
  | 'Z' :: rest => some (0, rest)
  | sign :: rest =>
    if sign = '+' || sign = '-' then
      match rest with
      | h1 :: h2 :: rest2 =>
        if isAsciiDigit h1 && isAsciiDigit h2 then
          let hh := 10 * digitVal h1 + digitVal h2
          let rest3 := match rest2 with
            | ':' :: r => r
            | _ => rest2
          match scanZTwoDigit rest3 with
          | some (mm, rest4) =>
            let (secMicros, rest5) := scanZSeconds rest4
            let total : Int := (hh * 3600 + mm * 60) * 1000000 + secMicros
            some (if sign = '-' then -total else total, rest5)
          | none => none
        else none
      | _ => none
    else none
  | [] => none

/-- A token of a `strptime` format string. -/
inductive FmtTok where
  | lit (c : Char)
  | dY
  | dm
  | dd
  | dH
  | dM
  | dS
  | df
  | dz
deriving Repr, DecidableEq

/-- Accumulated field values while scanning; `strptime` defaults are
year 1900, January 1, midnight, no `tzinfo`. -/
structure ScanAcc where
  year : Nat := 1900
  month : Nat := 1
  day : Nat := 1
  hour : Nat := 0
  minute : Nat := 0
  second : Nat := 0
  microsecond : Nat := 0
  tz : Option Int := none
deriving Repr, DecidableEq

/-- Scan one format token off the input. -/
def scanTok : FmtTok → ScanAcc → List Char → Option (ScanAcc × List Char)
  | .lit c, acc, x :: rest =>
    if x.toLower == c.toLower then some (acc, rest) else none
  | .lit _, _, [] => none
  | .dY, acc, cs => (scanYear cs).map fun p => ({ acc with year := p.1 }, p.2)
  | .dm, acc, cs => (scanMonth cs).map fun p => ({ acc with month := p.1 }, p.2)
  | .dd, acc, cs => (scanDay cs).map fun p => ({ acc with day := p.1 }, p.2)
  | .dH, acc, cs => (scanHour cs).map fun p => ({ acc with hour := p.1 }, p.2)
  | .dM, acc, cs => (scanMinute cs).map fun p => ({ acc with minute := p.1 }, p.2)
  | .dS, acc, cs => (scanSecond cs).map fun p => ({ acc with second := p.1 }, p.2)
  | .df, acc, cs => (scanFraction cs).map fun p => ({ acc with microsecond := p.1 }, p.2)
  | .dz, acc, cs => (scanZOffset cs).map fun p => ({ acc with tz := some p.1 }, p.2)

/-- Run a whole format; `strptime` demands the entire input be consumed
("unconverted data remains" otherwise). -/
def scanFmt : List FmtTok → ScanAcc → List Char → Option ScanAcc
  | [], acc, [] => some acc
  | [], _, _ :: _ => none
  | t :: ts, acc, cs =>
    match scanTok t acc cs with
    | some (acc2, rest) => scanFmt ts acc2 rest
    | none => none

/-- The range checks the `datetime` constructor (and `timezone`) apply
after the regex phase: calendar-valid date, second at most 59, offset
strictly less than 24 hours in magnitude. -/
def validDatetime (a : ScanAcc) : Bool :=
  1 ≤ a.year && a.year ≤ 9999 && 1 ≤ a.month && a.month ≤ 12 &&
  1 ≤ a.day && a.day ≤ daysInMonth a.year a.month &&
  a.hour ≤ 23 && a.minute ≤ 59 && a.second ≤ 59 && a.microsecond ≤ 999999 &&
  (match a.tz with
   | none => true
   | some off => off.natAbs < 24 * 3600 * 1000000)

/-- `datetime.strptime(s, fmt)` as an `Option`: `none` is the
`ValueError` path. -/
def strptime (s : String) (fmt : List FmtTok) : Option PyDatetime :=
  match scanFmt fmt {} s.toList with
  | some a =>
    if validDatetime a then
      some ⟨a.year, a.month, a.day, a.hour, a.minute, a.second, a.microsecond, a.tz⟩
    else none
  | none => none

/-! ## `_parse_jira_date` (jira_manager.py lines 1155-1177) -/

/-- `'%Y-%m-%dT%H:%M:%S.%f%z'`. -/
def fmtFracOffset : List FmtTok :=
  [.dY, .lit '-', .dm, .lit '-', .dd, .lit 'T', .dH, .lit ':', .dM, .lit ':', .dS,
   .lit '.', .df, .dz]

/-- `'%Y-%m-%dT%H:%M:%S%z'`. -/
def fmtSecOffset : List FmtTok :=
  [.dY, .lit '-', .dm, .lit '-', .dd, .lit 'T', .dH, .lit ':', .dM, .lit ':', .dS, .dz]

/-- `'%Y-%m-%dT%H:%M:%S.%fZ'`. -/
def fmtFracZ : List FmtTok :=
  [.dY, .lit '-', .dm, .lit '-', .dd, .lit 'T', .dH, .lit ':', .dM, .lit ':', .dS,
   .lit '.', .df, .lit 'Z']

/-- `'%Y-%m-%dT%H:%M:%SZ'`. -/
def fmtSecZ : List FmtTok :=
  [.dY, .lit '-', .dm, .lit '-', .dd, .lit 'T', .dH, .lit ':', .dM, .lit ':', .dS,
   .lit 'Z']

/-- `'%Y-%m-%d'`. -/
def fmtBareDate : List FmtTok := [.dY, .lit '-', .dm, .lit '-', .dd]

/-- The `formats` list of `_parse_jira_date`, in source order. -/
def jiraDateFormats : List (List FmtTok) :=
  [fmtFracOffset, fmtSecOffset, fmtFracZ, fmtSecZ, fmtBareDate]

/-- `date_str.replace('Z', '+0000') if date_str.endswith('Z') else
date_str`, recomputed identically on every loop iteration. -/
def cleanDateStr (date_str : String) : String :=
  if pyEndswith date_str "Z" then
    ⟨charsReplaceChar 'Z' "+0000".toList date_str.toList⟩
  else date_str

/-- The `for fmt in formats` loop of `_parse_jira_date`: first successful
`strptime` returns, a `ValueError` continues with the next format. -/
def tryJiraFormats : List (List FmtTok) → String → Option PyDatetime
  | [], _ => none
  | fmt :: rest, date_str =>
    match strptime (cleanDateStr date_str) fmt with
    | some dt => some dt
    | none => tryJiraFormats rest date_str

/-- `_parse_jira_date`: empty input short-circuits to `None`, otherwise
the format loop runs. -/
def parseJiraDate (date_str : String) : Option PyDatetime :=
  if date_str = "" then none
  else tryJiraFormats jiraDateFormats date_str

/-- `_parse_jira_date` applied to a field that may be absent (`None`):
`if not date_str: return None` covers both absence and the empty
string. -/
def parseJiraDateOpt : Option String → Option PyDatetime
  | none => none
  | some s => parseJiraDate s

/-! ## Activity classifier (`get_issues_by_date_range`, lines 1091-1130) -/

/-- The four activity buckets. -/
inductive Bucket where
  | started
  | completed
  | blocked
  | other
deriving Repr, DecidableEq

/-- `['blocked', 'impediment', 'hold', 'waiting', 'stuck']`. -/
def blockedTerms : List String := ["blocked", "impediment", "hold", "waiting", "stuck"]

/-- `['done', 'closed', 'resolved', 'complete']`. -/
def doneTerms : List String := ["done", "closed", "resolved", "complete"]

/-- `['progress', 'development', 'active', 'working']`. -/
def progressTerms : List String := ["progress", "development", "active", "working"]

/-- The per-issue body of the categorisation loop: lower-case the status
name, parse the `updated` field, then test the three keyword sets in
order; the date-gated buckets additionally require a parsed `updated`
value (`if updated_date and ...`) at or after the cutoff. -/
def categorizeIssue (statusNameRaw : String) (updated : Option String)
    (cutoff : PyDatetime) : Bucket :=
  let issue_status := pyLower statusNameRaw
  let updated_date := parseJiraDateOpt updated
  if blockedTerms.any fun t => pyIn t issue_status then
    .blocked
  else if doneTerms.any fun t => pyIn t issue_status then
    match updated_date with
    | some d => if compareDates d cutoff then .completed else .other
    | none => .other
  else if progressTerms.any fun t => pyIn t issue_status then
    match updated_date with
    | some d => if compareDates d cutoff then .started else .other
    | none => .other
  else
    .other

/-! ## Impact scorer (`_assess_business_impact`, lines 501-540) -/

/-- `['outage', 'down', 'critical', 'security', 'data loss',
'customer impact', 'revenue']`. -/
def highImpactKeywords : List String :=
  ["outage", "down", "critical", "security", "data loss", "customer impact", "revenue"]

/-- The keyword loop with its `break`: the first matching keyword adds
one point and stops the scan. -/
def keywordBonus : List String → String → Nat
  | [], _ => 0
  | k :: rest, text => if pyIn k text then 1 else keywordBonus rest text

/-- The HIGH rating string returned by `_assess_business_impact`. -/
def impactHighStr : String :=
  "🔴 **HIGH** - Critical business impact requiring immediate attention"

/-- The MEDIUM rating string returned by `_assess_business_impact`. -/
def impactMediumStr : String :=
  "🟡 **MEDIUM** - Moderate business impact, should be prioritized"

/-- The LOW rating string returned by `_assess_business_impact`. -/
def impactLowStr : String :=
  "🟢 **LOW** - Minimal business impact, can be addressed in normal workflow"

/-- `_assess_business_impact`: accumulate priority, type and keyword
scores, then threshold at 6 and 4. -/
def assessBusinessImpact (issue_type priority : String) (labels : List String)
    (description : String) : String :=
  let priority_lower := pyLower priority
  let impact_score : Nat :=
    if pyIn "critical" priority_lower || pyIn "highest" priority_lower then 4
    else if pyIn "high" priority_lower then 3
    else if pyIn "medium" priority_lower then 2
    else 1
  let type_lower := pyLower issue_type
  let impact_score :=
    impact_score +
      (if pyIn "bug" type_lower && (pyIn "critical" type_lower || pyIn "blocker" type_lower) then 2
       else if pyIn "security" type_lower then 2
       else if pyIn "feature" type_lower || pyIn "epic" type_lower then 1
       else 0)
  let text_to_check := pyLower (pyJoinSpace (labels ++ [description]))
  let impact_score := impact_score + keywordBonus highImpactKeywords text_to_check
  if impact_score ≥ 6 then impactHighStr
  else if impact_score ≥ 4 then impactMediumStr
  else impactLowStr

/-! ## Spec-side impact scorer (§4.5 of the specification)

These definitions follow the spec's words, to be compared with
`assessBusinessImpact`, which is translated from the code. -/

/-- Three-tier impact rating named by the spec. -/
inductive Impact where
  | HIGH
  | MEDIUM
  | LOW
deriving Repr, DecidableEq

/-- Spec §4.5: priority contains "critical" or "highest": +4; else
"high": +3; else "medium": +2; else +1 (case-insensitive). -/
def specPriorityWeight (priority : String) : Nat :=
  let p := pyLower priority
  if pyIn "critical" p || pyIn "highest" p then 4
  else if pyIn "high" p then 3
  else if pyIn "medium" p then 2
  else 1

/-- Spec §4.5: type contains "bug" AND ("critical" or "blocker"): +2;
else "security": +2; else "feature" or "epic": +1. -/
def specTypeWeight (issue_type : String) : Nat :=
  let t := pyLower issue_type
  if pyIn "bug" t && (pyIn "critical" t || pyIn "blocker" t) then 2
  else if pyIn "security" t then 2
  else if pyIn "feature" t || pyIn "epic" t then 1
  else 0

/-- Spec §4.5: joined labels+description contain a high-impact keyword:
+1, at most once. -/
def specKeywordWeight (labels : List String) (description : String) : Nat :=
  let text := pyLower (pyJoinSpace (labels ++ [description]))
  if highImpactKeywords.any fun k => pyIn k text then 1 else 0

/-- Spec §4.5 total score. -/
def specImpactTotal (issue_type priority : String) (labels : List String)
    (description : String) : Nat :=
  specPriorityWeight priority + specTypeWeight issue_type +
    specKeywordWeight labels description

/-- Spec §4.5: total ≥6 → HIGH; ≥4 → MEDIUM; else LOW. -/
def specRating (total : Nat) : Impact :=
  if total ≥ 6 then .HIGH else if total ≥ 4 then .MEDIUM else .LOW

/-- The string the code prints for each spec-level rating. -/
def ratingString : Impact → String
  | .HIGH => impactHighStr
  | .MEDIUM => impactMediumStr
  | .LOW => impactLowStr

/-! ## HTTP model and version negotiation (`test_connection`, lines 185-255)

A server is a function from endpoint URL to response; `jsonOk` records
whether `response.json()` succeeds on the body. -/

structure HTTPResp where
  status : Nat
  text : String
  jsonOk : Bool
deriving Repr, DecidableEq

/-- Line 199: fall back to the legacy family exactly when the modern
probe returned 404, or returned 200 with a stripped body starting with
`<`. -/
def fallbackCond (r : HTTPResp) : Bool :=
  r.status == 404 || (r.status == 200 && pyStartswith "<" (pyStrip r.text))

/-- Lines 208-247: the status handling shared by both branches — only a
200 with parseable JSON succeeds; 200 with an unparseable body, 401,
403, 404 and every other status return `False`. -/
def connOutcome (r : HTTPResp) : Bool :=
  if r.status == 200 then
    if r.jsonOk then true else false
  else false

/-- What a `test_connection` run did: the endpoints it requested in
order, the API family it bound, and its boolean result. -/
structure NegotiationTrace where
  requested : List String
  api_version : String
  ok : Bool
deriving Repr, DecidableEq

/-- `test_connection` (lines 194-247): probe `/rest/api/3/myself`;
on the fallback condition re-issue against `/rest/api/2/myself` and bind
`v2`, otherwise bind `v3`. -/
def testConnection (base_url : String) (srv : String → HTTPResp) : NegotiationTrace :=
  let ep1 := base_url ++ "/rest/api/3/myself"
  let r1 := srv ep1
  if fallbackCond r1 then
    let ep2 := base_url ++ "/rest/api/2/myself"
    { requested := [ep1, ep2], api_version := "v2", ok := connOutcome (srv ep2) }
  else
    { requested := [ep1], api_version := "v3", ok := connOutcome r1 }

/-- Endpoints requested by `get_projects` (lines 260-280): the first
URL is chosen from the bound family; an HTML 200 or a 404 retries the
other version only when the bound family is not already `v2`. -/
def getProjectsEndpoints (api_version base_url : String)
    (srv : String → HTTPResp) : List String :=
  let ep1 := if api_version == "v2" then base_url ++ "/rest/api/2/project"
             else base_url ++ "/rest/api/3/project"
  let r1 := srv ep1
  if r1.status == 200 && pyStartswith "<" (pyStrip r1.text) then
    if api_version != "v2" then [ep1, base_url ++ "/rest/api/2/project"] else [ep1]
  else if r1.status == 404 && api_version != "v2" then
    [ep1, base_url ++ "/rest/api/2/project"]
  else [ep1]

/-- Endpoints requested by `get_issue_details` (lines 396-413): first
URL from the bound family, inline 404 fallback only when not already
`v2`. -/
def getIssueDetailsEndpoints (api_version base_url issue_key : String)
    (srv : String → HTTPResp) : List String :=
  let ep1 := if api_version == "v2" then base_url ++ "/rest/api/2/issue/" ++ issue_key
             else base_url ++ "/rest/api/3/issue/" ++ issue_key
  let r1 := srv ep1
  if r1.status == 404 && api_version != "v2" then
    [ep1, base_url ++ "/rest/api/2/issue/" ++ issue_key]
  else [ep1]

/-- Endpoints requested by `get_project_issues` (lines 907-910): the
modern `/rest/api/3/search` is always constructed first — the bound
family is not consulted — with an inline 404 fallback to
`/rest/api/2/search`. -/
def getProjectIssuesEndpoints (base_url : String) (srv : String → HTTPResp) : List String :=
  let ep1 := base_url ++ "/rest/api/3/search"
  if (srv ep1).status == 404 then [ep1, base_url ++ "/rest/api/2/search"] else [ep1]

/-! ## `_extract_project_from_filter` (lines 381-391)

`re.search(r'project\s*(?:=|in)\s*(?:\()?[\x27"]*([A-Z][A-Z0-9]*)',
query, re.IGNORECASE)` — the leftmost match wins, and with `IGNORECASE`
the key group accepts letters of either case. -/

/-- ASCII letter (the `[A-Z]` class under `IGNORECASE`). -/
def isAsciiLetter (c : Char) : Bool :=
  ('a' ≤ c && c ≤ 'z') || ('A' ≤ c && c ≤ 'Z')

/-- Match a literal word case-insensitively at the head of the input,
returning the remainder. -/
def ciLeadMatch : List Char → List Char → Option (List Char)
  | [], cs => some cs
  | _ :: _, [] => none
  | k :: ks, c :: cs => if c.toLower == k.toLower then ciLeadMatch ks cs else none

/-- Attempt the whole pattern at one start position; the capture group is
the key. -/
def matchProjectAt (cs : List Char) : Option String :=
  match ciLeadMatch "project".toList cs with
  | none => none
  | some cs1 =>
    let cs2 := cs1.dropWhile isPySpace
    let opRest : Option (List Char) :=
      match cs2 with
      | '=' :: r => some r
      | _ => ciLeadMatch "in".toList cs2
    match opRest with
    | none => none
    | some cs3 =>
      let cs4 := cs3.dropWhile isPySpace
      let cs5 := match cs4 with
        | '(' :: r => r
        | _ => cs4
      let cs6 := cs5.dropWhile fun c => c == '\'' || c == '"'
      match cs6 with
      | c :: rest =>
        if isAsciiLetter c then
          some (String.mk (c :: rest.takeWhile fun d => isAsciiLetter d || isAsciiDigit d))
        else none
      | [] => none

/-- `re.search`: try each start position from the left. -/
def searchProject : List Char → Option String
  | [] => none
  | c :: cs =>
    match matchProjectAt (c :: cs) with
    | some m => some m
    | none => searchProject cs

/-- `_extract_project_from_filter`: empty query and no match both give
`'N/A'`. -/
def extractProjectFromFilter (filter_query : String) : String :=
  if filter_query = "" then "N/A"
  else
    match searchProject filter_query.toList with
    | some k => k
    | none => "N/A"

/-! ## Board discovery (`get_boards`, lines 301-379) -/

/-- A Python scalar as it appears in raw board/issue JSON fields. -/
inductive PyScalar where
  | vNone
  | vStr (s : String)
  | vInt (n : Int)
deriving Repr, DecidableEq

/-- A selected project (`{'key': ..., 'name': ...}`). -/
structure Project where
  key : String
  name : String
deriving Repr, DecidableEq

/-- The board shape `get_boards` returns: tier-1 payload entries pass
through unchanged; tiers 2 and 3 construct this shape explicitly. -/
structure BoardRec where
  id : PyScalar
  name : PyScalar
  type : String
  location_projectKey : Option String
deriving Repr, DecidableEq

/-- A GreenHopper rapid view, with the fields `get_boards` reads
(`sprintSupportEnabled` defaults to `False`, the filter query to `''`). -/
structure RapidView where
  id : PyScalar
  name : PyScalar
  sprintSupportEnabled : Bool
  filter_query : String
deriving Repr, DecidableEq

/-- Outcome of one backend request: network error, non-200 status,
200 with malformed JSON, or 200 with a parsed payload. -/
inductive Tier (α : Type) where
  | reqError : Tier α
  | httpFail (status : Nat) : Tier α
  | jsonError : Tier α
  | ok (payload : α) : Tier α
deriving Repr, DecidableEq

/-- Lines 344-353: map one rapid view to the standard board shape. -/
def ghViewToBoard (v : RapidView) : BoardRec :=
  { id := v.id
    name := v.name
    type := if v.sprintSupportEnabled then "scrum" else "kanban"
    location_projectKey := some (extractProjectFromFilter v.filter_query) }

/-- Lines 367-376: the tier-3 project-proxy board synthesized from a
selected project. -/
def projectProxyBoard (p : Project) : BoardRec :=
  { id := .vStr ("project-" ++ p.key)
    name := .vStr (p.name ++ " (Project View)")
    type := "project"
    location_projectKey := some p.key }

/-- `get_boards`: tier 1 (agile API `values`), then tier 2 (GreenHopper
rapid views, remapped), each returning early only on a non-empty list;
tier 3 synthesizes project proxies when both left `boards` empty and
projects are selected. -/
def getBoards (agile : Tier (List BoardRec)) (gh : Tier (List RapidView))
    (selected_projects : List Project) : List BoardRec :=
  let boards : List BoardRec :=
    match agile with
    | .ok bs => bs
    | _ => []
  if !boards.isEmpty then boards
  else
    let boards :=
      match gh with
      | .ok views => boards ++ views.map ghViewToBoard
      | _ => boards
    if !boards.isEmpty then boards
    else if boards.isEmpty && !selected_projects.isEmpty then
      boards ++ selected_projects.map projectProxyBoard
    else boards

/-! ## Issue discovery (`get_board_issues`, lines 921-982) -/

/-- The nested `status` sub-object of a canonical issue. -/
structure StatusField where
  name : String
  id : PyScalar
deriving Repr, DecidableEq

/-- The nested `assignee` sub-object. -/
structure AssigneeField where
  displayName : String
deriving Repr, DecidableEq

/-- A nested sub-object carrying only a `name` (priority, issue type). -/
structure NamedField where
  name : String
deriving Repr, DecidableEq

/-- The `fields` sub-object of a canonical (modern-shape) issue. -/
structure IssueFields where
  summary : PyScalar
  status : StatusField
  assignee : Option AssigneeField
  priority : NamedField
  issuetype : NamedField
  created : Option String
  updated : Option String
deriving Repr, DecidableEq

/-- A canonical issue record. -/
structure IssueRec where
  key : PyScalar
  id : PyScalar
  fields : IssueFields
deriving Repr, DecidableEq

/-- One record of the legacy GreenHopper "board work data" shape, with
the flat fields lines 945-964 read (`none` models an absent key). -/
structure GHIssueData where
  key : PyScalar
  id : PyScalar
  summary : PyScalar
  statusName : Option String
  statusId : PyScalar
  assigneeName : Option String
  priorityName : Option String
  typeName : Option String
deriving Repr, DecidableEq

/-- Python truthiness of an optional string field: absent and `''` are
falsy. -/
def pyTruthyStrOpt : Option String → Bool
  | none => false
  | some s => s ≠ ""

/-- Lines 946-965: remap one legacy record into the canonical shape,
synthesizing the nested sub-objects; a falsy `assigneeName` yields a
null assignee. -/
def ghIssueToIssue (d : GHIssueData) : IssueRec :=
  { key := d.key
    id := d.id
    fields :=
      { summary := d.summary
        status := { name := d.statusName.getD "Unknown", id := d.statusId }
        assignee :=
          if pyTruthyStrOpt d.assigneeName then
            some { displayName := d.assigneeName.getD "Unassigned" }
          else none
        priority := { name := d.priorityName.getD "Unknown" }
        issuetype := { name := d.typeName.getD "Unknown" }
        created := none
        updated := none } }

/-- The assignee display accessor used downstream (lines 1039-1040):
`assignee.get('displayName', 'Unassigned') if assignee else
'Unassigned'`. -/
def issueAssigneeName (i : IssueRec) : String :=
  match i.fields.assignee with
  | some a => a.displayName
  | none => "Unassigned"

/-- A native modern-shape issue built directly from the same underlying
data, for comparison with the remapped legacy record. -/
def mkModernIssue (key id summary : PyScalar) (statusName : String)
    (statusId : PyScalar) (assigneeDisplay : Option String)
    (priorityName typeName : String) : IssueRec :=
  { key := key
    id := id
    fields :=
      { summary := summary
        status := { name := statusName, id := statusId }
        assignee := assigneeDisplay.map fun n => { displayName := n }
        priority := { name := priorityName }
        issuetype := { name := typeName }
        created := none
        updated := none } }

/-- `get_board_issues`: tier 1 (agile API, returns on any 200 with
parsed JSON), tier 2 (GreenHopper work data, remapped), tier 3 (look up
the board, and search by its owning project key when that key is truthy
and not `'N/A'`); every failure path ends in the empty list. -/
def getBoardIssues (agile : Tier (List IssueRec)) (gh : Tier (List GHIssueData))
    (board_info : Option BoardRec) (projectIssues : String → List IssueRec) :
    List IssueRec :=
  match agile with
  | .ok issues => issues
  | _ =>
    match gh with
    | .ok ds => ds.map ghIssueToIssue
    | _ =>
      match board_info with
      | some b =>
        match b.location_projectKey with
        | some pk => if pk ≠ "" ∧ pk ≠ "N/A" then projectIssues pk else []
        | none => []
      | none => []

/-- The first tier yielded no boards: a failure, or a 200 whose `values`
array is empty. -/
def tierNoBoards : Tier (List BoardRec) → Prop
  | .ok bs => bs = []
  | _ => True

/-- The second tier yielded no views: a failure, or a 200 whose `views`
array is empty. -/
def tierNoViews : Tier (List RapidView) → Prop
  | .ok vs => vs = []
  | _ => True

/-- A tier failed outright (network error, non-200, or malformed JSON). -/
def tierFailed {α : Type} : Tier α → Prop
  | .ok _ => False
  | _ => True

/-- The tier-3 board lookup produced no usable owning project key. -/
def noResolvableKey : Option BoardRec → Prop
  | none => True
  | some b =>
    b.location_projectKey = none ∨ b.location_projectKey = some "" ∨
      b.location_projectKey = some "N/A"

/-! # Theorems -/

/-- Replacing `tzinfo` by UTC preserves the wall clock, so the UTC
instant of the result is the original naive wall clock. -/
theorem utcMicros_tz0 (a : PyDatetime) :
    utcMicros { a with tz := some 0 } = naiveMicros a := by
  simp [utcMicros, naiveMicros]

/-- C2: a status name containing a blocked keyword classifies as
`blocked` no matter what the `updated` field holds. -/
theorem blocked_status_always_blocked (statusNameRaw : String)
    (updated : Option String) (cutoff : PyDatetime)
    (h : blockedTerms.any (fun t => pyIn t (pyLower statusNameRaw)) = true) :
    categorizeIssue statusNameRaw updated cutoff = .blocked := by
  unfold categorizeIssue
  simp [h]

/-- Witness for C2: the status `'Blocked - waiting on vendor'` with an
unparseable `updated` value still lands in `blocked`. -/
theorem blocked_status_always_blocked_witness :
    blockedTerms.any (fun t => pyIn t (pyLower "Blocked - waiting on vendor")) = true ∧
    categorizeIssue "Blocked - waiting on vendor" (some "not-a-date")
      ⟨2024, 1, 8, 0, 0, 0, 0, some 0⟩ = .blocked :=
  ⟨by rfl, blocked_status_always_blocked _ _ _ (by rfl)⟩

/-- With no parsed `updated` instant, classification collapses to a
two-way choice between `blocked` and `other`. -/
theorem categorizeIssue_of_parse_none (s : String) (u : Option String)
    (c : PyDatetime) (h : parseJiraDateOpt u = none) :
    categorizeIssue s u c =
      if (blockedTerms.any fun t => pyIn t (pyLower s)) = true then .blocked
      else .other := by
  unfold categorizeIssue
  rw [h]
  by_cases h1 : (blockedTerms.any fun t => pyIn t (pyLower s)) = true
  · simp [h1]
  · by_cases h2 : (doneTerms.any fun t => pyIn t (pyLower s)) = true <;>
      by_cases h3 : (progressTerms.any fun t => pyIn t (pyLower s)) = true <;>
        simp [h1, h2, h3]

/-- C3: with no parseable `updated` instant an issue is never classified
`started` or `completed`; unless a blocked keyword matched first it
degrades to `other`. -/
theorem unparseable_updated_never_dated (statusNameRaw : String)
    (updated : Option String) (cutoff : PyDatetime)
    (h : parseJiraDateOpt updated = none) :
    categorizeIssue statusNameRaw updated cutoff ≠ .started ∧
    categorizeIssue statusNameRaw updated cutoff ≠ .completed ∧
    (blockedTerms.any (fun t => pyIn t (pyLower statusNameRaw)) = false →
      categorizeIssue statusNameRaw updated cutoff = .other) := by
  rw [categorizeIssue_of_parse_none _ _ _ h]
  by_cases h1 : (blockedTerms.any fun t => pyIn t (pyLower statusNameRaw)) = true <;>
    simp [h1]

/-- Witness for C3: status `'Done'` with an unparseable timestamp falls
into `other`, not `completed`. -/
theorem unparseable_updated_never_dated_witness :
    parseJiraDateOpt (some "last Tuesday") = none ∧
    (categorizeIssue "Done" (some "last Tuesday") ⟨2024, 1, 8, 0, 0, 0, 0, some 0⟩ ≠ .started ∧
     categorizeIssue "Done" (some "last Tuesday") ⟨2024, 1, 8, 0, 0, 0, 0, some 0⟩ ≠ .completed ∧
     (blockedTerms.any (fun t => pyIn t (pyLower "Done")) = false →
       categorizeIssue "Done" (some "last Tuesday") ⟨2024, 1, 8, 0, 0, 0, 0, some 0⟩ = .other)) :=
  ⟨by rfl, unparseable_updated_never_dated "Done" (some "last Tuesday") _ (by rfl)⟩

/-- C6: comparison is offset-tolerant — replacing a naive operand by the
aware-UTC datetime with the same wall clock never changes the result, in
either argument position, so naive-vs-aware comparisons agree with the
corresponding aware-vs-aware ones. -/
theorem compareDates_offset_consistent (a b : PyDatetime) (ha : a.tz = none) :
    compareDates a b = compareDates { a with tz := some 0 } b ∧
    compareDates b a = compareDates b { a with tz := some 0 } := by
  rcases hb : b.tz with _ | o <;>
    simp [compareDates, compareDatesE, pyGeDatetime, ha, hb, utcMicros, naiveMicros]

/-- Witness for C6: a concrete naive wall clock compared against an
aware cutoff agrees with its aware-UTC twin. -/
theorem compareDates_offset_consistent_witness :
    (⟨2024, 1, 15, 10, 30, 45, 0, none⟩ : PyDatetime).tz = none ∧
    (compareDates ⟨2024, 1, 15, 10, 30, 45, 0, none⟩ ⟨2024, 1, 8, 0, 0, 0, 0, some 0⟩ =
       compareDates ⟨2024, 1, 15, 10, 30, 45, 0, some 0⟩ ⟨2024, 1, 8, 0, 0, 0, 0, some 0⟩ ∧
     compareDates ⟨2024, 1, 8, 0, 0, 0, 0, some 0⟩ ⟨2024, 1, 15, 10, 30, 45, 0, none⟩ =
       compareDates ⟨2024, 1, 8, 0, 0, 0, 0, some 0⟩ ⟨2024, 1, 15, 10, 30, 45, 0, some 0⟩) :=
  ⟨rfl, compareDates_offset_consistent _ ⟨2024, 1, 8, 0, 0, 0, 0, some 0⟩ rfl⟩

/-- C10: the comparison body never raises — every datetime pair reaches
a boolean — and a comparison that is not `true` can only keep an issue
out of the date-gated buckets: `started`/`completed` require a parsed
`updated` instant whose comparison against the cutoff returned `true`. -/
theorem compareDates_total_and_conservative :
    (∀ a b : PyDatetime, ∃ r, compareDatesE a b = .ok r) ∧
    (∀ (statusNameRaw : String) (updated : Option String) (cutoff : PyDatetime),
      (categorizeIssue statusNameRaw updated cutoff = .started ∨
       categorizeIssue statusNameRaw updated cutoff = .completed) →
      ∃ d, parseJiraDateOpt updated = some d ∧ compareDates d cutoff = true) := by
  constructor
  · intro a b
    rcases ha : a.tz with _ | x <;> rcases hb : b.tz with _ | y <;>
      simp [compareDatesE, pyGeDatetime, ha, hb]
  · intro s upd cutoff h
    rcases hp : parseJiraDateOpt upd with _ | d
    · rw [categorizeIssue_of_parse_none _ _ _ hp] at h
      rcases h with h | h <;> revert h <;> split <;> simp
    · refine ⟨d, rfl, ?_⟩
      unfold categorizeIssue at h
      rw [hp] at h
      by_cases h1 : (blockedTerms.any fun t => pyIn t (pyLower s)) = true
      · simp [h1] at h
      · by_cases h2 : (doneTerms.any fun t => pyIn t (pyLower s)) = true
        · by_cases hc : compareDates d cutoff = true
          · exact hc
          · simp [h1, h2, hc] at h
        · by_cases h3 : (progressTerms.any fun t => pyIn t (pyLower s)) = true
          · by_cases hc : compareDates d cutoff = true
            · exact hc
            · simp [h1, h2, h3, hc] at h
          · simp [h1, h2, h3] at h

/-- Witness for C10: a mixed naive/aware pair reaches a boolean, and a
concrete `started` classification exhibits the parsed instant and its
`true` comparison. -/
theorem compareDates_total_and_conservative_witness :
    (∃ r, compareDatesE ⟨2024, 1, 15, 0, 0, 0, 0, none⟩
        ⟨2024, 1, 8, 0, 0, 0, 0, some 0⟩ = .ok r) ∧
    (∃ d, parseJiraDateOpt (some "2024-01-10T00:00:00Z") = some d ∧
       compareDates d ⟨2024, 1, 8, 0, 0, 0, 0, some 0⟩ = true) :=
  ⟨compareDates_total_and_conservative.1 _ _,
   compareDates_total_and_conservative.2 "In Progress" (some "2024-01-10T00:00:00Z")
     ⟨2024, 1, 8, 0, 0, 0, 0, some 0⟩ (Or.inl (by rfl))⟩

/-- The format loop is the first-success scan of the format list against
the rewritten input. -/
theorem tryJiraFormats_eq_findSome (fmts : List (List FmtTok)) (s : String) :
    tryJiraFormats fmts s =
      (fmts.map fun fmt => strptime (cleanDateStr s) fmt).findSome? id := by
  induction fmts with
  | nil => rfl
  | cons fmt rest ih =>
    simp only [tryJiraFormats, List.map_cons, List.findSome?_cons]
    cases strptime (cleanDateStr s) fmt
    · simpa using ih
    · rfl

/-- C7: on non-empty input the parser rewrites a literal `Z` suffix to
`+0000`, then attempts exactly the five patterns in their fixed order,
the first success deciding the result, with `none` when every pattern
fails. -/
theorem parseJiraDate_five_formats (s : String) (h : s ≠ "") :
    parseJiraDate s =
      (jiraDateFormats.map fun fmt => strptime (cleanDateStr s) fmt).findSome? id ∧
    jiraDateFormats =
      [fmtFracOffset, fmtSecOffset, fmtFracZ, fmtSecZ, fmtBareDate] ∧
    ((∀ fmt ∈ jiraDateFormats, strptime (cleanDateStr s) fmt = none) →
      parseJiraDate s = none) := by
  have e : parseJiraDate s =
      (jiraDateFormats.map fun fmt => strptime (cleanDateStr s) fmt).findSome? id := by
    unfold parseJiraDate
    rw [if_neg h]
    exact tryJiraFormats_eq_findSome _ _
  refine ⟨e, rfl, ?_⟩
  intro hall
  rw [e]
  rw [List.findSome?_eq_none_iff]
  intro o ho
  rcases List.mem_map.mp ho with ⟨fmt, hfmt, rfl⟩
  exact hall fmt hfmt

/-- Witness for C7: a fractional-seconds UTC timestamp with a `Z` suffix
is rewritten and parsed by the first format. -/
theorem parseJiraDate_five_formats_witness :
    "2024-01-15T10:30:45.123Z" ≠ "" ∧
    parseJiraDate "2024-01-15T10:30:45.123Z" =
      some ⟨2024, 1, 15, 10, 30, 45, 123000, some 0⟩ ∧
    (parseJiraDate "2024-01-15T10:30:45.123Z" =
      (jiraDateFormats.map fun fmt =>
        strptime (cleanDateStr "2024-01-15T10:30:45.123Z") fmt).findSome? id ∧
     jiraDateFormats =
      [fmtFracOffset, fmtSecOffset, fmtFracZ, fmtSecZ, fmtBareDate] ∧
     ((∀ fmt ∈ jiraDateFormats,
        strptime (cleanDateStr "2024-01-15T10:30:45.123Z") fmt = none) →
      parseJiraDate "2024-01-15T10:30:45.123Z" = none)) :=
  ⟨by simp, by rfl, parseJiraDate_five_formats _ (by simp)⟩

/-- The keyword loop scores one point exactly when some keyword occurs,
its `break` making a single point the maximum. -/
theorem keywordBonus_eq_any (ks : List String) (t : String) :
    keywordBonus ks t = if (ks.any fun k => pyIn k t) = true then 1 else 0 := by
  induction ks with
  | nil => rfl
  | cons k rest ih =>
    by_cases hk : pyIn k t = true
    · simp [keywordBonus, hk]
    · simp [keywordBonus, hk, ih]

/-- Reading the thresholded rating back as its display string. -/
theorem ratingString_specRating (n : Nat) :
    ratingString (specRating n) =
      if n ≥ 6 then impactHighStr
      else if n ≥ 4 then impactMediumStr
      else impactLowStr := by
  unfold specRating ratingString
  by_cases h6 : n ≥ 6
  · simp [h6]
  · by_cases h4 : n ≥ 4 <;> simp [h6, h4]

/-- C8: the impact scorer is exactly the spec's accumulation — priority
weight (+4/+3/+2/+1), type weight (+2/+2/+1/0), keyword bonus (+1 at
most once), thresholded at 6 and 4 — and the two pinned scenarios score
6 → HIGH and 2 → LOW. -/
theorem impact_scorer_weights :
    (∀ (issue_type priority : String) (labels : List String) (description : String),
      assessBusinessImpact issue_type priority labels description =
        ratingString (specRating (specImpactTotal issue_type priority labels description))) ∧
    specImpactTotal "Bug - Critical" "Highest" [] "" = 6 ∧
    assessBusinessImpact "Bug - Critical" "Highest" [] "" = impactHighStr ∧
    specImpactTotal "Task" "Low" ["customer impact"] "" = 2 ∧
    assessBusinessImpact "Task" "Low" ["customer impact"] "" = impactLowStr := by
  refine ⟨?_, by rfl, by rfl, by rfl, by rfl⟩
  intro issue_type priority labels description
  rw [ratingString_specRating]
  unfold assessBusinessImpact specImpactTotal specPriorityWeight specTypeWeight
    specKeywordWeight
  simp only [keywordBonus_eq_any]

/-- C9: remapping a legacy GreenHopper record into the canonical shape
preserves the key, the status name and the assignee display name — it
equals the native modern-shape record over the same underlying data —
and a falsy legacy assignee becomes a null assignee rendered
`'Unassigned'`. -/
theorem legacy_remap_preserves (key id summary statusId : PyScalar)
    (statusName assigneeName priorityName typeName : String)
    (h : assigneeName ≠ "") :
    ghIssueToIssue ⟨key, id, summary, some statusName, statusId, some assigneeName,
        some priorityName, some typeName⟩ =
      mkModernIssue key id summary statusName statusId (some assigneeName)
        priorityName typeName ∧
    (ghIssueToIssue ⟨key, id, summary, some statusName, statusId, some assigneeName,
        some priorityName, some typeName⟩).key = key ∧
    (ghIssueToIssue ⟨key, id, summary, some statusName, statusId, some assigneeName,
        some priorityName, some typeName⟩).fields.status.name = statusName ∧
    issueAssigneeName (ghIssueToIssue ⟨key, id, summary, some statusName, statusId,
        some assigneeName, some priorityName, some typeName⟩) = assigneeName ∧
    (∀ an : Option String, pyTruthyStrOpt an = false →
      (ghIssueToIssue ⟨key, id, summary, some statusName, statusId, an,
          some priorityName, some typeName⟩).fields.assignee = none ∧
      issueAssigneeName (ghIssueToIssue ⟨key, id, summary, some statusName, statusId,
          an, some priorityName, some typeName⟩) = "Unassigned") := by
  have ht : pyTruthyStrOpt (some assigneeName) = true := by
    simp [pyTruthyStrOpt, h]
  refine ⟨?_, rfl, rfl, ?_, ?_⟩
  · simp [ghIssueToIssue, mkModernIssue, ht]
  · simp [ghIssueToIssue, issueAssigneeName, ht]
  · intro an han
    constructor
    · simp [ghIssueToIssue, han]
    · simp [ghIssueToIssue, issueAssigneeName, han]

/-- Witness for C9: a concrete legacy record with assignee `'Alice'`
remaps losslessly, and one with an absent assignee renders
`'Unassigned'`. -/
theorem legacy_remap_preserves_witness :
    "Alice" ≠ "" ∧
    (ghIssueToIssue ⟨.vStr "PROJ-1", .vInt 101, .vStr "Fix login", some "In Progress",
        .vInt 3, some "Alice", some "High", some "Bug"⟩ =
      mkModernIssue (.vStr "PROJ-1") (.vInt 101) (.vStr "Fix login") "In Progress"
        (.vInt 3) (some "Alice") "High" "Bug" ∧
     (ghIssueToIssue ⟨.vStr "PROJ-1", .vInt 101, .vStr "Fix login", some "In Progress",
        .vInt 3, some "Alice", some "High", some "Bug"⟩).key = .vStr "PROJ-1" ∧
     (ghIssueToIssue ⟨.vStr "PROJ-1", .vInt 101, .vStr "Fix login", some "In Progress",
        .vInt 3, some "Alice", some "High", some "Bug"⟩).fields.status.name = "In Progress" ∧
     issueAssigneeName (ghIssueToIssue ⟨.vStr "PROJ-1", .vInt 101, .vStr "Fix login",
        some "In Progress", .vInt 3, some "Alice", some "High", some "Bug"⟩) = "Alice" ∧
     (∀ an : Option String, pyTruthyStrOpt an = false →
       (ghIssueToIssue ⟨.vStr "PROJ-1", .vInt 101, .vStr "Fix login", some "In Progress",
          .vInt 3, an, some "High", some "Bug"⟩).fields.assignee = none ∧
       issueAssigneeName (ghIssueToIssue ⟨.vStr "PROJ-1", .vInt 101, .vStr "Fix login",
          some "In Progress", .vInt 3, an, some "High", some "Bug"⟩) = "Unassigned")) :=
  ⟨by simp, legacy_remap_preserves _ _ _ _ _ _ _ _ (by simp)⟩

/-- C4: when tiers 1 and 2 yield no boards, tier 3 synthesizes exactly
one project-proxy board per selected project — id `'project-' + key`,
owning key the project's key — and the synthesis never fires once a
genuine backend returned a non-empty set. -/
theorem board_discovery_tier3 (t1 : Tier (List BoardRec)) (t2 : Tier (List RapidView))
    (projects : List Project) (h1 : tierNoBoards t1) (h2 : tierNoViews t2) :
    getBoards t1 t2 projects = projects.map projectProxyBoard ∧
    (∀ p ∈ projects, projectProxyBoard p =
      { id := .vStr ("project-" ++ p.key), name := .vStr (p.name ++ " (Project View)"),
        type := "project", location_projectKey := some p.key }) ∧
    (projects.map projectProxyBoard).length = projects.length ∧
    (∀ bs : List BoardRec, bs ≠ [] → getBoards (.ok bs) t2 projects = bs) ∧
    (∀ vs : List RapidView, vs ≠ [] →
      getBoards t1 (.ok vs) projects = vs.map ghViewToBoard) := by
  have e1 : ∀ t2a : Tier (List RapidView),
      getBoards t1 t2a projects = getBoards (.ok []) t2a projects := by
    intro t2a
    rcases t1 with _ | s1 | _ | bs
    · rfl
    · rfl
    · rfl
    · obtain rfl : bs = [] := h1
      rfl
  refine ⟨?_, fun p _ => rfl, List.length_map _ _, ?_, ?_⟩
  · rw [e1]
    have e2 : getBoards (.ok []) t2 projects = getBoards (.ok []) (.ok []) projects := by
      rcases t2 with _ | s2 | _ | vs
      · rfl
      · rfl
      · rfl
      · obtain rfl : vs = [] := h2
        rfl
    rw [e2]
    cases projects <;> rfl
  · intro bs hbs
    cases bs with
    | nil => exact absurd rfl hbs
    | cons b bt => rfl
  · intro vs hvs
    rw [e1]
    cases vs with
    | nil => exact absurd rfl hvs
    | cons v vt => rfl

/-- Witness for C4: one selected project, a 404 from the agile API and
an explicit empty rapid-view list synthesize exactly the one proxy
board. -/
theorem board_discovery_tier3_witness :
    tierNoBoards (.httpFail 404) ∧ tierNoViews (.ok []) ∧
    (getBoards (.httpFail 404) (.ok []) [⟨"OCPBUGS", "OpenShift Bugs"⟩] =
        [⟨"OCPBUGS", "OpenShift Bugs"⟩].map projectProxyBoard ∧
     (∀ p ∈ [(⟨"OCPBUGS", "OpenShift Bugs"⟩ : Project)], projectProxyBoard p =
       { id := .vStr ("project-" ++ p.key), name := .vStr (p.name ++ " (Project View)"),
         type := "project", location_projectKey := some p.key }) ∧
     ([(⟨"OCPBUGS", "OpenShift Bugs"⟩ : Project)].map projectProxyBoard).length =
        [(⟨"OCPBUGS", "OpenShift Bugs"⟩ : Project)].length ∧
     (∀ bs : List BoardRec, bs ≠ [] →
        getBoards (.ok bs) (.ok []) [⟨"OCPBUGS", "OpenShift Bugs"⟩] = bs) ∧
     (∀ vs : List RapidView, vs ≠ [] →
        getBoards (.httpFail 404) (.ok vs) [⟨"OCPBUGS", "OpenShift Bugs"⟩] =
          vs.map ghViewToBoard)) :=
  ⟨trivial, rfl, board_discovery_tier3 (.httpFail 404) (.ok [])
    [⟨"OCPBUGS", "OpenShift Bugs"⟩] trivial rfl⟩

/-- C5: when the agile tier and the GreenHopper tier both fail and the
board lookup yields no usable owning project key, `get_board_issues`
returns the empty list — a valid terminal result, not an error. -/
theorem issue_discovery_exhaustion (agile : Tier (List IssueRec))
    (gh : Tier (List GHIssueData)) (board_info : Option BoardRec)
    (projectIssues : String → List IssueRec)
    (h1 : tierFailed agile) (h2 : tierFailed gh) (h3 : noResolvableKey board_info) :
    getBoardIssues agile gh board_info projectIssues = [] := by
  have e1 : getBoardIssues agile gh board_info projectIssues =
      getBoardIssues .reqError gh board_info projectIssues := by
    rcases agile with _ | s1 | _ | xs
    · rfl
    · rfl
    · rfl
    · exact h1.elim
  have e2 : getBoardIssues .reqError gh board_info projectIssues =
      getBoardIssues .reqError .reqError board_info projectIssues := by
    rcases gh with _ | s2 | _ | ys
    · rfl
    · rfl
    · rfl
    · exact h2.elim
  rw [e1, e2]
  rcases board_info with _ | b
  · rfl
  · rcases h3 with hk | hk | hk <;> simp [getBoardIssues, hk]

/-- Witness for C5: a 500 from the agile API, malformed GreenHopper
JSON and a board whose owning key is `'N/A'` yield the empty list even
though the project-search fallback function would have produced an
issue. -/
theorem issue_discovery_exhaustion_witness :
    tierFailed (Tier.httpFail (α := List IssueRec) 500) ∧
    tierFailed (Tier.jsonError (α := List GHIssueData)) ∧
    noResolvableKey (some ⟨.vStr "42", .vStr "Board 42", "kanban", some "N/A"⟩) ∧
    getBoardIssues (.httpFail 500) .jsonError
      (some ⟨.vStr "42", .vStr "Board 42", "kanban", some "N/A"⟩)
      (fun _ => [⟨.vStr "X-1", .vInt 7,
        ⟨.vStr "s", ⟨"Done", .vInt 1⟩, none, ⟨"High"⟩, ⟨"Bug"⟩, none, none⟩⟩]) = [] :=
  ⟨trivial, trivial, Or.inr (Or.inr rfl),
   issue_discovery_exhaustion _ _ _ _ trivial trivial (Or.inr (Or.inr rfl))⟩

/-- A server with only the legacy API family: every `/rest/api/3/` path
404s, everything else answers 200 with valid JSON. -/
def legacyOnlyServer : String → HTTPResp := fun ep =>
  if pyIn "/rest/api/3/" ep then ⟨404, "", false⟩ else ⟨200, "{}", true⟩

/-- C1 counterexample: against a legacy-only server the negotiator binds
`v2`, yet `get_project_issues` still constructs the modern
`/rest/api/3/search` endpoint first — the legacy search path is only
reached through the inline 404 fallback, so it is false that all
subsequent endpoint construction uses the legacy path. -/
theorem version_binding_counterexample :
    (testConnection "https://jira.example.com" legacyOnlyServer).api_version = "v2" ∧
    getProjectIssuesEndpoints "https://jira.example.com" legacyOnlyServer =
      ["https://jira.example.com/rest/api/3/search",
       "https://jira.example.com/rest/api/2/search"] ∧
    "https://jira.example.com/rest/api/3/search" ≠
      "https://jira.example.com/rest/api/2/search" := by
  refine ⟨rfl, rfl, by simp⟩

/-- C1 amended: the negotiator falls back (binding `v2`) exactly on a
404 or a 200 whose stripped body starts with `<`; any other outcome
binds `v3` with no second probe.  Once `v2` is bound, `get_projects`
and `get_issue_details` construct only legacy paths, but
`get_project_issues` always constructs the modern search path first,
reaching the legacy one only through its inline 404 fallback. -/
theorem version_negotiation_amended (base_url issue_key : String)
    (srv : String → HTTPResp) :
    ((testConnection base_url srv).api_version = "v2" ↔
      ((srv (base_url ++ "/rest/api/3/myself")).status = 404 ∨
       ((srv (base_url ++ "/rest/api/3/myself")).status = 200 ∧
        pyStartswith "<" (pyStrip (srv (base_url ++ "/rest/api/3/myself")).text) = true))) ∧
    (¬((srv (base_url ++ "/rest/api/3/myself")).status = 404 ∨
       ((srv (base_url ++ "/rest/api/3/myself")).status = 200 ∧
        pyStartswith "<" (pyStrip (srv (base_url ++ "/rest/api/3/myself")).text) = true)) →
      (testConnection base_url srv).requested = [base_url ++ "/rest/api/3/myself"] ∧
      (testConnection base_url srv).api_version = "v3") ∧
    getProjectsEndpoints "v2" base_url srv = [base_url ++ "/rest/api/2/project"] ∧
    getIssueDetailsEndpoints "v2" base_url issue_key srv =
      [base_url ++ "/rest/api/2/issue/" ++ issue_key] ∧
    (getProjectIssuesEndpoints base_url srv).head? =
      some (base_url ++ "/rest/api/3/search") := by
  have hv : (("v2" : String) != "v2") = false := rfl
  have hfc : fallbackCond (srv (base_url ++ "/rest/api/3/myself")) = true ↔
      ((srv (base_url ++ "/rest/api/3/myself")).status = 404 ∨
       ((srv (base_url ++ "/rest/api/3/myself")).status = 200 ∧
        pyStartswith "<" (pyStrip (srv (base_url ++ "/rest/api/3/myself")).text) = true)) := by
    unfold fallbackCond
    simp
  refine ⟨?_, ?_, ?_, ?_, ?_⟩
  · by_cases hc : fallbackCond (srv (base_url ++ "/rest/api/3/myself")) = true
    · simp only [testConnection, hc, if_true]
      exact ⟨fun _ => hfc.mp hc, fun _ => by trivial⟩
    · simp only [testConnection]
      rw [if_neg hc]
      constructor
      · intro hbad
        exact absurd hbad (by simp)
      · intro hr
        exact absurd (hfc.mpr hr) hc
  · intro hnot
    have hc : ¬ fallbackCond (srv (base_url ++ "/rest/api/3/myself")) = true :=
      fun hc => hnot (hfc.mp hc)
    simp only [testConnection]
    rw [if_neg hc]
    exact ⟨rfl, rfl⟩
  · unfold getProjectsEndpoints
    simp [hv]
  · unfold getIssueDetailsEndpoints
    simp [hv]
  · by_cases hs : ((srv (base_url ++ "/rest/api/3/search")).status == 404) = true <;>
      simp [getProjectIssuesEndpoints, hs]

/-- Witness for C1 amended: against the concrete legacy-only server the
bound family is `v2` and the amended endpoint facts hold. -/
theorem version_negotiation_amended_witness :
    getProjectsEndpoints "v2" "https://jira.example.com" legacyOnlyServer =
      ["https://jira.example.com/rest/api/2/project"] ∧
    getIssueDetailsEndpoints "v2" "https://jira.example.com" "PROJ-1" legacyOnlyServer =
      ["https://jira.example.com/rest/api/2/issue/PROJ-1"] ∧
    (getProjectIssuesEndpoints "https://jira.example.com" legacyOnlyServer).head? =
      some ("https://jira.example.com/rest/api/3/search") :=
  ⟨(version_negotiation_amended "https://jira.example.com" "PROJ-1" legacyOnlyServer).2.2.1,
   (version_negotiation_amended "https://jira.example.com" "PROJ-1" legacyOnlyServer).2.2.2.1,
   (version_negotiation_amended "https://jira.example.com" "PROJ-1" legacyOnlyServer).2.2.2.2⟩

end JiraMgr
